import Mathlib

/-!
Shallow embedding of `src/server.py`: a Flask + python-telegram-bot gateway
that receives webhook updates and inline queries, fans a job-search request
out to job sites through `JobSearchService`, and renders the aggregate into
either a direct chat reply or an inline result list.

Conventions of the embedding:
* Python dicts whose insertion order matters are `List (key × value)`.
* A Python callable that may raise is modelled as returning `Except String α`
  (the `String` is `str(e)`, the exception text).
* `try/except` is modelled by pattern matching on that `Except`.
* The external search service `search_service.search_all_sites` is a
  parameter (`RawService`) of every function that calls it.
* The Flask thread-local request context is an explicit `Option` argument:
  `none` means the code runs outside of an HTTP request context, in which
  case touching `request.args` raises `RuntimeError`.
-/

set_option autoImplicit false

namespace Server

/-- Modelled from the spec: `settings.py` (class `Settings`) is not under
`src/`; §6 specifies a registry of valid `SourceId`s and a non-empty default
subset, loaded once at process start.  Instantiated with the two sources the
code names (`job_sites.hh`, `job_sites.geekjob`). -/
def AVAILABLE_SITES : List String := ["hh", "geekjob"]

/-- Modelled from the spec: `Settings.DEFAULT_SITE_CHOICES`, the configured
default subset of source ids (§6), non-empty. -/
def DEFAULT_SITE_CHOICES : List String := ["hh", "geekjob"]

/-- Modelled from the spec: `Settings.get_site_name`, the registry mapping
`SourceId` to a display name (§6).  The exact display strings are
presentation, outside the scope of the spec. -/
def get_site_name (site : String) : String :=
  if site = "hh" then "HH" else if site = "geekjob" then "GeekJob" else site

/-- One per-site entry of the formatted results dict:
`{"jobs": [...], "timing_ms": ...}` (lines 52-55).  Timings are modelled as
natural numbers of milliseconds, matching the `:.0f` rendering. -/
structure SiteData where
  jobs : List String
  timing_ms : Nat
deriving Repr, DecidableEq

/-- The dict returned by `search_service.search_all_sites`: a `global_time`
key plus one dict per site, in insertion order (the sites in `entries`, the
`global_time` key separated out). -/
structure RawResults where
  global_time : Nat
  entries : List (String × SiteData)
deriving Repr, DecidableEq

/-- Model of `search_service.search_all_sites(keyword, None, sites)`: an external
callable taking the keyword and the resolved sites list, which may raise
(`Except.error` carries the exception text). -/
def RawService : Type :=
  String → List String → Except String RawResults

/-- Value of `search_jobs` / `search_jobs_for_inline`: either the formatted
results dict, or the `{"error": str(e)}` dict built by the `except` branch. -/
inductive SearchOutcome where
  | error (msg : String)
  | results (global_time_ms : Nat) (results : List (String × SiteData))
deriving Repr, DecidableEq

/-- Text of `str(e)` for the `RuntimeError` Flask raises when `request.args` is
touched outside of an HTTP request context (abbreviated text). -/
def flaskOutsideRequestContext : String :=
  "Working outside of request context."

/-- Python `str.strip()`: drop leading and trailing whitespace.  Defined
structurally on the character list so that proofs can evaluate it. -/
def pyStrip (s : String) : String :=
  String.mk (((s.data.dropWhile Char.isWhitespace).reverse.dropWhile
    Char.isWhitespace).reverse)

/-- Python `site.strip().lower()` (line 43). -/
def trimLower (s : String) : String :=
  (pyStrip s).toLower

/-- Lines 42-46: read the `sites` query parameter (defaulting to the joined
default choices), split on commas, keep the trimmed lowercased ids that are
in `AVAILABLE_SITES`, and fall back to `DEFAULT_SITE_CHOICES` when nothing
survives the filter.  `sitesParam` is `request.args.get("sites")`. -/
def resolveSites (sitesParam : Option String) : List String :=
  let raw := sitesParam.getD (String.intercalate "," DEFAULT_SITE_CHOICES)
  let sites := ((raw.splitOn ",").map trimLower).filter
    (fun s => AVAILABLE_SITES.contains s)
  if sites = [] then DEFAULT_SITE_CHOICES else sites

/-- Lines 49-57 and 71-79: project the raw dict of the service onto the formatted
results dict (`global_time_ms` plus per-site `jobs`/`timing_ms`). -/
def formatResults (raw : RawResults) : SearchOutcome :=
  .results raw.global_time raw.entries

/-- Function `search_jobs(keyword)`, lines 39-62.  `reqCtx` is the ambient Flask
request context: `none` when the call happens outside an HTTP request (the
first statement of its `try` raises `RuntimeError`), `some sitesParam` when a
request is active.  Every exception of the body is caught by the `except`
branch, which returns the `{"error": str(e)}` dict. -/
def search_jobs (keyword : String) (reqCtx : Option (Option String))
    (service : RawService) : SearchOutcome :=
  match reqCtx with
  | none => .error flaskOutsideRequestContext
  | some sitesParam =>
    match service keyword (resolveSites sitesParam) with
    | .error e => .error e
    | .ok raw => formatResults raw

/-- Function `search_jobs_for_inline(keyword, sites=None)`, lines 64-84: no Flask
request context is read; `sites=None` defaults to `DEFAULT_SITE_CHOICES`,
and exceptions are caught into the `{"error": str(e)}` dict. -/
def search_jobs_for_inline (keyword : String) (sites : Option (List String))
    (service : RawService) : SearchOutcome :=
  match service keyword (sites.getD DEFAULT_SITE_CHOICES) with
  | .error e => .error e
  | .ok raw => formatResults raw

/-- Python `sum(len(r["jobs"]) for r in results.values())` (lines 145, 210). -/
def totalJobs (entries : List (String × SiteData)) : Nat :=
  (entries.map (fun p => p.2.jobs.length)).sum

/-- The `telegram.Update` object built by `Update.de_json`, reduced to what
the webhook handler reads: `effective_user` (possibly absent). -/
structure PyUpdate where
  effective_user : Option Nat
deriving Repr, DecidableEq

/-- JSON body of the HTTP response of the webhook: `{"status": "success"}` or
`{"status": "error", "message": msg}`. -/
inductive JsonBody where
  | success
  | error (message : String)
deriving Repr, DecidableEq

/-- Observable outcome of one `telegram_webhook` call.

`http status body enqueued waitedForProcessing` is a normal return:
`enqueued` lists the updates handed to `executor.submit` for
`telegram_app.process_update`, and `waitedForProcessing` records whether the
handler observed completion of that processing before producing the
response (lines 105-111 never call `future.result()` in the handler — the
inner `.result()` runs on the executor thread — so the code sets it
`false`; on paths that enqueue nothing it is vacuously `false`).

`uncaughtNameError` is the outcome in which the `except` branch itself
raised: its log f-string (line 113) reads the local `user_id`, which is
unbound whenever the `try` body raised before line 95, so a `NameError`
escapes the handler and no JSON body is returned. -/
inductive WebhookOutcome where
  | http (status : Nat) (body : JsonBody) (enqueued : List PyUpdate)
      (waitedForProcessing : Bool)
  | uncaughtNameError
deriving Repr, DecidableEq

/-- The updates a webhook call handed to the executor. -/
def WebhookOutcome.enqueuedOf : WebhookOutcome → List PyUpdate
  | .http _ _ e _ => e
  | .uncaughtNameError => []

/-- Whether the outcome is an HTTP 200 `{"status": "success"}` response. -/
def WebhookOutcome.reportsSuccess : WebhookOutcome → Bool
  | .http _ .success _ _ => true
  | _ => false

/-- Whether the handler observed completion of the enqueued processing
before returning its response. -/
def WebhookOutcome.completedBeforeReturn : WebhookOutcome → Bool
  | .http _ _ _ w => w
  | .uncaughtNameError => false

/-- Function `telegram_webhook()`, lines 87-114.  `botInitialized` is
`telegram_app is not None` (line 89).  `parse` models lines 94-95 up to the
`user_id` assignment: `request.get_json(force=True)`, `Update.de_json` and
the `update.effective_user` attribute access; `.error e` means one of them
raised with text `e`, before `user_id` was bound.  On success the handler
submits `process_update` to the executor and immediately returns
`{"status": "success"}, 200` without touching the submitted future. -/
def telegram_webhook (botInitialized : Bool)
    (parse : Except String PyUpdate) : WebhookOutcome :=
  if !botInitialized then
    .http 500 (.error "Telegram bot not initialized") [] false
  else
    match parse with
    | .ok u => .http 200 .success [u] false
    | .error _ => .uncaughtNameError

/-- The `f"{idx}. {job}"` lines produced by `enumerate(jobs, 1)` (lines 139-140,
251-252). -/
def numbered (jobs : List String) : List String :=
  jobs.enum.map (fun p =>
    let idx := p.1 + 1
    let job := p.2
    s!"{idx}. {job}")

/-- The indented `f"  {idx}. {job}"` lines of the summary body (line 231). -/
def numberedIndent (jobs : List String) : List String :=
  jobs.enum.map (fun p =>
    let idx := p.1 + 1
    let job := p.2
    s!"  {idx}. {job}")

/-- Python `"\n".join(...)`. -/
def joinNl (lines : List String) : String :=
  String.intercalate "\n" lines

/-- Lines 138-141: the chunk of one site in the direct reply — the sub-header
with display name and rendered latency, the first 3 jobs numbered, and the
trailing empty string that joins into a blank line. -/
def siteBlock (site : String) (d : SiteData) : List String :=
  let name := get_site_name site
  let t := d.timing_ms
  s!"\n🏢 {name} ({t} ms):" :: numbered (d.jobs.take 3) ++ [""]

/-- Lines 136-143: render the results dict of a successful search into the
direct-reply message.  `"No jobs found"` is produced only when the joined
list still has length 1, i.e. when `entries` is empty. -/
def renderSearchResults (entries : List (String × SiteData)) : String :=
  let response := "🔍 Search Results:" :: entries.flatMap (fun p => siteBlock p.1 p.2)
  if response.length > 1 then joinNl response else "No jobs found"

/-- Body of `handle_search` with the search result from the executor abstracted: lines
117-145 given the value `search keyword` that
`run_in_executor(executor, lambda: search_jobs(keyword))` produced.  The
returned list holds the texts passed to `update.message.reply_text`, in
order. -/
def handleSearchWith (search : String → SearchOutcome)
    (args : List String) : List String :=
  let keyword := String.intercalate " " args
  if keyword = "" then ["Usage: /search <job_keyword>"]
  else
    match search keyword with
    | .error e => ["🚨 Error: " ++ e]
    | .results _ entries => [renderSearchResults entries]

/-- Function `handle_search(update, context)`, lines 117-148, as deployed: the lambda
on line 128 calls `search_jobs(keyword)` on an executor thread, where no
Flask request context is active, so the search runs with `reqCtx = none`. -/
def handle_search (service : RawService) (args : List String) : List String :=
  handleSearchWith (fun kw => search_jobs kw none service) args

/-- One `InlineQueryResultArticle`, reduced to its id, title, description
and the `message_text` of its `InputTextMessageContent`. -/
structure InlineEntry where
  id : String
  title : String
  description : String
  message_text : String
deriving Repr, DecidableEq

/-- The fixed usage entry for an empty inline query (lines 159-168). -/
def usageEntry : InlineEntry where
  id := "usage"
  title := "💼 IT Jobs Finder Bot"
  description := "Type a job keyword to search for jobs (e.g., \x27python developer\x27)"
  message_text := "Usage: @itjobsfinder_bot <job_keyword>\nExample: @itjobsfinder_bot python developer"

/-- The transient placeholder answered before the search (lines 173-182). -/
def loadingEntry (query : String) : InlineEntry where
  id := "loading"
  title := s!"🔍 Searching for \x27{query}\x27..."
  description := "Please wait while we search job sites"
  message_text := s!"🔍 Searching for jobs: {query}..."

/-- The entry answered when the search returned an error dict
(lines 194-203). -/
def errorEntry (query err : String) : InlineEntry where
  id := "error"
  title := "❌ Search Error"
  description := s!"Error: {err}"
  message_text := s!"🚨 Search Error for \x27{query}\x27: {err}"

/-- The single entry answered when the total job count is zero
(lines 213-222). -/
def noResultsEntry (query : String) : InlineEntry where
  id := "no_results"
  title := "😔 No Jobs Found"
  description := s!"No jobs found for \x27{query}\x27"
  message_text := s!"😔 No jobs found for: {query}\n\nTry different keywords or check back later."

/-- The jobs the body of a site entry shows: `jobs[:10]` (line 251). -/
def siteShownJobs (d : SiteData) : List String :=
  d.jobs.take 10

/-- The jobs the summary body shows for one site: `jobs[:5]` (line 230). -/
def summaryShownJobs (d : SiteData) : List String :=
  d.jobs.take 5

/-- Lines 226-232: the chunk of the summary body for one site, empty when the
site has no jobs. -/
def summarySiteLines (site : String) (d : SiteData) : List String :=
  let name := get_site_name site
  let cnt := d.jobs.length
  let t := d.timing_ms
  if cnt > 0 then
    s!"🏢 {name}: {cnt} jobs ({t}ms)" :: numberedIndent (summaryShownJobs d) ++ [""]
  else []

/-- The summary entry of a non-empty settled answer (lines 224-244). -/
def summaryEntry (query : String) (total : Nat)
    (entries : List (String × SiteData)) : InlineEntry where
  id := "summary"
  title := s!"💼 {total} Jobs Found"
  description := s!"Found {total} jobs for \x27{query}\x27"
  message_text :=
    joinNl (s!"🔍 Job Search Results for: {query}\n"
      :: entries.flatMap (fun p => summarySiteLines p.1 p.2))

/-- One per-site entry of a non-empty settled answer (lines 250-264). -/
def siteEntry (query : String) (site : String) (d : SiteData) : InlineEntry where
  id := s!"site_{site}"
  title :=
    let name := get_site_name site
    let cnt := d.jobs.length
    s!"🏢 {name} ({cnt} jobs)"
  description :=
    let name := get_site_name site
    let cnt := d.jobs.length
    s!"{cnt} jobs found on {name}"
  message_text :=
    let name := get_site_name site
    joinNl (s!"🏢 {name} - {query}\n" :: numbered (siteShownJobs d))

/-- One call to `update.inline_query.answer`: the entry list and its
`cache_time`. -/
abbrev AnswerCall : Type := List InlineEntry × Nat

/-- The `try` body of `handle_inline_query`, lines 154-272, given the raw
query text: the sequence of `answer` calls it makes, in order.  A non-empty
query first answers the loading placeholder (`cache_time=1`), then either
the error entry (`cache_time=60`), the single no-results entry, or the
summary followed by one entry per site with jobs, truncated to 50
(`cache_time=300`). -/
def handleInlineAnswers (rawQuery : String) (service : RawService) :
    List AnswerCall :=
  let query := pyStrip rawQuery
  if query = "" then [([usageEntry], 300)]
  else
    let loading : AnswerCall := ([loadingEntry query], 1)
    match search_jobs_for_inline query none service with
    | .error e => [loading, ([errorEntry query e], 60)]
    | .results _ entries =>
      if totalJobs entries = 0 then
        [loading, ([noResultsEntry query], 300)]
      else
        let inlineResults :=
          summaryEntry query (totalJobs entries) entries ::
            (entries.filter (fun p => !p.2.jobs.isEmpty)).map
              (fun p => siteEntry query p.1 p.2)
        [loading, (inlineResults.take 50, 300)]

/-- Observable outcome of one `handle_inline_query` call.  As in
`WebhookOutcome`, `uncaughtNameError` is the path where the `try` body
raised before `user_id` was assigned (line 155) and the log f-string of the
`except` branch (line 275) then read the unbound local `user_id`, so a
`NameError` escapes and no answer is sent. -/
inductive InlineOutcome where
  | answered (calls : List AnswerCall)
  | uncaughtNameError
deriving DecidableEq

/-- Function `handle_inline_query(update, context)`, lines 151-286.  `inline_query`
is the query text of `update.inline_query`, `none` when `update.inline_query` is
absent: then line 154 raises `AttributeError` before `user_id` is bound,
and the `except` branch itself raises `NameError`. -/
def handle_inline_query (inline_query : Option String)
    (service : RawService) : InlineOutcome :=
  match inline_query with
  | none => .uncaughtNameError
  | some raw => .answered (handleInlineAnswers raw service)

/-- The entry list of a settled non-empty inline answer (lines 209-268):
the summary entry, then one entry per site whose jobs list is non-empty, in
the order of the results dict, truncated to the Telegram limit of 50. -/
def settledEntries (query : String) (entries : List (String × SiteData)) :
    List InlineEntry :=
  (summaryEntry query (totalJobs entries) entries ::
    (entries.filter (fun p => !p.2.jobs.isEmpty)).map
      (fun p => siteEntry query p.1 p.2)).take 50

/-- A sample parsed update used in concrete evaluations. -/
def testUpdate : PyUpdate := { effective_user := some 42 }

/-- A sample service returning one job on one site. -/
def oneJobService : RawService :=
  fun _ _ => .ok { global_time := 5, entries := [("hh", { jobs := ["Job A"], timing_ms := 100 })] }

/-- A sample service returning an empty results dict. -/
def emptyService : RawService :=
  fun _ _ => .ok { global_time := 5, entries := [] }

/-- A sample service whose call raises with text `boom`. -/
def boomService : RawService :=
  fun _ _ => .error "boom"

/-!
Theorems.  One theorem per claim of the specification review, in claim
order, with counterexamples and witnesses next to their claim.
-/

/-- C1 counterexample: a webhook call with an initialized bot and a
successfully parsed update reports HTTP success while the processing of the
submitted event has not been observed to complete — the handler returns
right after `executor.submit` without touching the future, so it reports
success for an event whose processing has not completed. -/
theorem webhook_reports_success_without_completion :
    (telegram_webhook true (.ok testUpdate)).reportsSuccess = true
    ∧ (telegram_webhook true (.ok testUpdate)).completedBeforeReturn = false :=
  ⟨rfl, rfl⟩

/-- C1 (amended): every webhook submission accepted by the bridge (bot
initialized, update parsed) enqueues exactly that event on the executor and
immediately returns HTTP 200 `{"status": "success"}` without waiting for
the processing of the event to complete; the success status is therefore
reported before processing has finished. -/
theorem webhook_fire_and_forget (u : PyUpdate) :
    telegram_webhook true (.ok u) = .http 200 .success [u] false :=
  rfl

/-- C2 (code bug): with a non-empty keyword such as `python`, `handle_search`
never replies with the rendered per-source results block: the lambda passed
to the executor calls `search_jobs`, which reads `request.args` outside of
any Flask request context, so the reply is always the error message built
from the `RuntimeError`; the empty-keyword half (usage message, no search)
does hold. -/
theorem search_command_always_errors (service : RawService) :
    handle_search service ["python"]
      = ["🚨 Error: " ++ flaskOutsideRequestContext]
    ∧ handle_search service [] = ["Usage: /search <job_keyword>"] :=
  ⟨rfl, rfl⟩

/-- C3 (code bug): a successful search whose per-source map contains one
site with zero jobs has total job count zero, yet the direct reply is the
header block with an empty sub-header, not the single `No jobs found`
message — `No jobs found` is produced only when the per-source map is
empty, because the guard checks `len(response) > 1`. -/
theorem search_reply_zero_jobs_not_no_results :
    totalJobs [("hh", { jobs := [], timing_ms := 120 })] = 0
    ∧ handleSearchWith
        (fun _ => .results 0 [("hh", { jobs := [], timing_ms := 120 })]) ["python"]
      = ["🔍 Search Results:\n\n🏢 HH (120 ms):\n"]
    ∧ (handleSearchWith
        (fun _ => .results 0 [("hh", { jobs := [], timing_ms := 120 })]) ["python"]
        == ["No jobs found"]) = false
    ∧ handleSearchWith (fun _ => .results 0 []) ["python"] = ["No jobs found"] :=
  ⟨rfl, rfl, by decide, rfl⟩

/-- C4: a webhook POST arriving while `telegram_app` is `None` returns the
JSON body `{"status": "error", "message": "Telegram bot not initialized"}`
with HTTP status 500, and enqueues nothing, whatever the request body
parses to. -/
theorem webhook_uninitialized_rejects (parse : Except String PyUpdate) :
    telegram_webhook false parse
      = .http 500 (.error "Telegram bot not initialized") [] false
    ∧ (telegram_webhook false parse).enqueuedOf = [] :=
  ⟨rfl, rfl⟩

/-- C5: the sites resolved from the request are exactly the trimmed,
lowercased requested ids that are in `AVAILABLE_SITES`, with fallback to
`DEFAULT_SITE_CHOICES` when the filter leaves nothing; the resolved list is
never empty, every filtered id is available, and `search_jobs` invokes the
underlying service exactly on that resolved list. -/
theorem resolveSites_valid_and_nonempty (sitesParam : Option String) :
    resolveSites sitesParam
      = (if (((sitesParam.getD (String.intercalate "," DEFAULT_SITE_CHOICES)).splitOn
            ",").map trimLower).filter (fun s => AVAILABLE_SITES.contains s) = []
         then DEFAULT_SITE_CHOICES
         else (((sitesParam.getD (String.intercalate "," DEFAULT_SITE_CHOICES)).splitOn
            ",").map trimLower).filter (fun s => AVAILABLE_SITES.contains s))
    ∧ ((((sitesParam.getD (String.intercalate "," DEFAULT_SITE_CHOICES)).splitOn
          ",").map trimLower).filter (fun s => AVAILABLE_SITES.contains s)).all
        (fun s => AVAILABLE_SITES.contains s) = true
    ∧ 0 < (resolveSites sitesParam).length
    ∧ ∀ (keyword : String) (service : RawService),
        search_jobs keyword (some sitesParam) service
          = match service keyword (resolveSites sitesParam) with
            | .error e => SearchOutcome.error e
            | .ok raw => formatResults raw := by
  refine ⟨rfl, ?_, ?_, fun keyword service => rfl⟩
  · rw [List.all_eq_true]
    intro s hs
    exact List.of_mem_filter hs
  · show 0 < (if _ = ([] : List String) then DEFAULT_SITE_CHOICES else _).length
    split
    · decide
    · rename_i h
      exact List.length_pos.mpr h

/-- C6: a settled inline answer with total jobs above zero answers the
loading placeholder and then exactly `settledEntries`: the summary entry,
followed by one entry per source with at least one job in the order of the
per-source map, truncated to at most 50 entries with the summary retained
at the head; site bodies show at most 10 jobs and the summary shows at most
5 jobs per source. -/
theorem inline_settled_answer_shape (rawQuery : String) (service : RawService)
    (g : Nat) (entries : List (String × SiteData))
    (hq : ¬ (pyStrip rawQuery) = "")
    (hs : search_jobs_for_inline (pyStrip rawQuery) none service = .results g entries)
    (ht : 0 < totalJobs entries) :
    handleInlineAnswers rawQuery service
      = [([loadingEntry (pyStrip rawQuery)], 1),
         (settledEntries (pyStrip rawQuery) entries, 300)]
    ∧ settledEntries (pyStrip rawQuery) entries
      = (summaryEntry (pyStrip rawQuery) (totalJobs entries) entries ::
          (entries.filter (fun p => !p.2.jobs.isEmpty)).map
            (fun p => siteEntry (pyStrip rawQuery) p.1 p.2)).take 50
    ∧ (settledEntries (pyStrip rawQuery) entries).length ≤ 50
    ∧ (settledEntries (pyStrip rawQuery) entries).head?
        = some (summaryEntry (pyStrip rawQuery) (totalJobs entries) entries)
    ∧ ∀ p ∈ entries,
        (siteShownJobs p.2).length ≤ 10 ∧ (summaryShownJobs p.2).length ≤ 5 := by
  refine ⟨?_, rfl, ?_, ?_, ?_⟩
  · simp only [handleInlineAnswers, if_neg hq, hs]
    rw [if_neg (Nat.pos_iff_ne_zero.mp ht)]
    rfl
  · rw [settledEntries, List.length_take]
    exact min_le_left _ _
  · rw [settledEntries]
    rfl
  · intro p _
    constructor
    · rw [siteShownJobs, List.length_take]
      exact min_le_left _ _
    · rw [summaryShownJobs, List.length_take]
      exact min_le_left _ _

/-- C6 witness: on the query `python` with a service returning one job on
one site, the hypotheses hold and the settled entry list is within the
cap. -/
theorem inline_settled_answer_shape_witness :
    ¬ (pyStrip "python" = "")
    ∧ search_jobs_for_inline (pyStrip "python") none oneJobService
        = .results 5 [("hh", { jobs := ["Job A"], timing_ms := 100 })]
    ∧ 0 < totalJobs [("hh", { jobs := ["Job A"], timing_ms := 100 })]
    ∧ (settledEntries (pyStrip "python")
        [("hh", { jobs := ["Job A"], timing_ms := 100 })]).length ≤ 50 :=
  ⟨by decide, by decide, by decide,
   (inline_settled_answer_shape "python" oneJobService 5
      [("hh", { jobs := ["Job A"], timing_ms := 100 })]
      (by decide) (by decide) (by decide)).2.2.1⟩

/-- C7: a non-empty inline query whose search succeeds with zero total jobs
answers, after the loading placeholder, a final answer holding exactly one
entry, whose id is `no_results`. -/
theorem inline_zero_jobs_single_no_results (rawQuery : String)
    (service : RawService) (g : Nat) (entries : List (String × SiteData))
    (hq : ¬ (pyStrip rawQuery) = "")
    (hs : search_jobs_for_inline (pyStrip rawQuery) none service = .results g entries)
    (ht : totalJobs entries = 0) :
    handleInlineAnswers rawQuery service
      = [([loadingEntry (pyStrip rawQuery)], 1), ([noResultsEntry (pyStrip rawQuery)], 300)]
    ∧ (handleInlineAnswers rawQuery service).getLast?
        = some ([noResultsEntry (pyStrip rawQuery)], 300)
    ∧ [noResultsEntry (pyStrip rawQuery)].length = 1
    ∧ (noResultsEntry (pyStrip rawQuery)).id = "no_results" := by
  have key : handleInlineAnswers rawQuery service
      = [([loadingEntry (pyStrip rawQuery)], 1), ([noResultsEntry (pyStrip rawQuery)], 300)] := by
    simp only [handleInlineAnswers, if_neg hq, hs]
    rw [if_pos ht]
  exact ⟨key, by rw [key]; rfl, rfl, rfl⟩

/-- C7 witness: the query `python` against a service returning an empty
per-source map settles to the single `no_results` entry. -/
theorem inline_zero_jobs_single_no_results_witness :
    ¬ (pyStrip "python" = "")
    ∧ search_jobs_for_inline (pyStrip "python") none emptyService = .results 5 []
    ∧ totalJobs [] = 0
    ∧ handleInlineAnswers "python" emptyService
        = [([loadingEntry (pyStrip "python")], 1), ([noResultsEntry (pyStrip "python")], 300)] :=
  ⟨by decide, by decide, rfl,
   (inline_zero_jobs_single_no_results "python" emptyService 5 []
      (by decide) (by decide) rfl).1⟩

/-- C8: an inline query that is empty after trimming is answered with the
single fixed usage entry (id `usage`), and that answer is the same whatever
the query whitespace, the service, or any earlier interaction — the
handler holds no state. -/
theorem inline_empty_query_fixed_usage (rawQuery : String) (service : RawService)
    (hq : (pyStrip rawQuery) = "") :
    handle_inline_query (some rawQuery) service = .answered [([usageEntry], 300)]
    ∧ usageEntry.id = "usage"
    ∧ ∀ (rawQuery2 : String) (service2 : RawService), pyStrip rawQuery2 = "" →
        handle_inline_query (some rawQuery) service
          = handle_inline_query (some rawQuery2) service2 := by
  have key : ∀ (r : String) (s : RawService), pyStrip r = "" →
      handle_inline_query (some r) s = .answered [([usageEntry], 300)] := by
    intro r s h
    simp only [handle_inline_query, handleInlineAnswers, if_pos h]
  exact ⟨key rawQuery service hq, rfl,
    fun r2 s2 h2 => (key rawQuery service hq).trans (key r2 s2 h2).symm⟩

/-- C8 witness: a whitespace-only query is answered with the fixed usage
entry, for a concrete service. -/
theorem inline_empty_query_fixed_usage_witness :
    pyStrip "  " = ""
    ∧ handle_inline_query (some "  ") emptyService
        = .answered [([usageEntry], 300)] :=
  ⟨by decide, (inline_empty_query_fixed_usage "  " emptyService (by decide)).1⟩

/-- C9: `search_jobs` and `search_jobs_for_inline` are total — every call
yields either the error dict or a results dict, never an escaping
exception; a raising service call is caught into the error dict carrying
the exception text; and every `search_jobs` call outside an HTTP request
context yields the `RuntimeError` error dict, whatever the service would
have returned. -/
theorem search_wrappers_total_and_catch :
    (∀ (kw : String) (ctx : Option (Option String)) (service : RawService),
        (∃ m, search_jobs kw ctx service = .error m)
        ∨ ∃ g es, search_jobs kw ctx service = .results g es)
    ∧ (∀ (kw : String) (service : RawService),
        search_jobs kw none service = .error flaskOutsideRequestContext)
    ∧ (∀ (kw : String) (sites : Option (List String)) (service : RawService),
        (∃ m, search_jobs_for_inline kw sites service = .error m)
        ∨ ∃ g es, search_jobs_for_inline kw sites service = .results g es)
    ∧ (∀ (kw : String) (sitesParam : Option String) (service : RawService)
        (e : String),
        service kw (resolveSites sitesParam) = .error e →
        search_jobs kw (some sitesParam) service = .error e)
    ∧ (∀ (kw : String) (sites : Option (List String)) (service : RawService)
        (e : String),
        service kw (sites.getD DEFAULT_SITE_CHOICES) = .error e →
        search_jobs_for_inline kw sites service = .error e) := by
  refine ⟨?_, fun kw service => rfl, ?_, ?_, ?_⟩
  · intro kw ctx service
    cases ctx with
    | none => exact .inl ⟨_, rfl⟩
    | some sp =>
      cases h : service kw (resolveSites sp) with
      | error e => exact .inl ⟨e, by simp only [search_jobs, h]⟩
      | ok raw =>
        exact .inr ⟨raw.global_time, raw.entries,
          by simp only [search_jobs, h, formatResults]⟩
  · intro kw sites service
    cases h : service kw (sites.getD DEFAULT_SITE_CHOICES) with
    | error e => exact .inl ⟨e, by simp only [search_jobs_for_inline, h]⟩
    | ok raw =>
      exact .inr ⟨raw.global_time, raw.entries,
        by simp only [search_jobs_for_inline, h, formatResults]⟩
  · intro kw sp service e h
    simp only [search_jobs, h]
  · intro kw sites service e h
    simp only [search_jobs_for_inline, h]

/-- C9 witness: a service raising `boom` is caught into the error dict by
both wrappers, at concrete inputs. -/
theorem search_wrappers_total_and_catch_witness :
    boomService "python" (resolveSites (some "hh")) = .error "boom"
    ∧ search_jobs "python" (some (some "hh")) boomService = .error "boom"
    ∧ boomService "python" ((none : Option (List String)).getD DEFAULT_SITE_CHOICES)
        = .error "boom"
    ∧ search_jobs_for_inline "python" none boomService = .error "boom" :=
  ⟨rfl,
   search_wrappers_total_and_catch.2.2.2.1 "python" (some "hh") boomService "boom" rfl,
   rfl,
   search_wrappers_total_and_catch.2.2.2.2 "python" none boomService "boom" rfl⟩

/-- C10: a webhook request whose body parsing raises before `user_id` is
assigned (for example unparseable JSON, whose exception text is shown)
makes the `except` branch itself raise `NameError` on the unbound local
`user_id`, so the handler does not return the error JSON body; an inline
update whose `inline_query` is absent hits the same hazard in
`handle_inline_query`. -/
theorem unbound_user_id_name_error (service : RawService) :
    telegram_webhook true (.error "Expecting value: line 1 column 1 (char 0)")
      = .uncaughtNameError
    ∧ decide (WebhookOutcome.uncaughtNameError
        = .http 500 (.error "Expecting value: line 1 column 1 (char 0)") [] false)
        = false
    ∧ handle_inline_query none service = .uncaughtNameError :=
  ⟨rfl, by decide, rfl⟩

end Server
